import Mathlib

/-! Verification of the redmine time-logger's proration, parsing and
allocation core (files `redmine-time-logger.py` and
`redmine-time-logger-py35.py`).

Python numeric semantics are modelled over exact rationals (`ℚ`): Python
float literals and float arithmetic are idealised as exact rational
arithmetic, and Python's builtin `round` (round-half-to-even, "banker's
rounding") is modelled exactly on `ℚ`.  `float(str)` and `int(str)` are
modelled on their finite decimal-literal fragment (whitespace stripping,
optional sign, mantissa with optional fraction and exponent); `inf`/`nan`
and underscore digit separators are outside the model.  Console and REST
I/O is modelled by an environment of query results and an input stream,
and by result records collecting the created time entries, the messages
printed and the return value. -/

namespace Py

/-- Python's builtin `round(x)` with no digit argument: round half to even,
returning an integer. -/
def roundHalfEven (x : ℚ) : ℤ :=
  let f := ⌊x⌋
  let r := x - f
  if r < 1/2 then f
  else if 1/2 < r then f + 1
  else if f % 2 = 0 then f else f + 1

/-- Python's builtin `round(x, n)`: round half to even at `n` decimal digits. -/
def roundTo (x : ℚ) (n : ℕ) : ℚ :=
  (roundHalfEven (x * 10 ^ n) : ℚ) / 10 ^ n

/-- Strip leading and trailing whitespace, as `float`/`int` do on their
string argument. -/
def stripChars (l : List Char) : List Char :=
  ((l.dropWhile Char.isWhitespace).reverse.dropWhile Char.isWhitespace).reverse

/-- Numeric value of a list of decimal digit characters. -/
def natOfDigits (l : List Char) : ℕ :=
  l.foldl (fun acc c => 10 * acc + (c.toNat - '0'.toNat)) 0

/-- `10 ^ e` on `ℚ` for an integer exponent. -/
def pow10 (e : ℤ) : ℚ :=
  if 0 ≤ e then (10 : ℚ) ^ e.toNat else ((10 : ℚ) ^ (-e).toNat)⁻¹

/-- The unsigned part of a Python float literal: `digits`, `digits.digits`,
`digits.`, `.digits`, each with an optional `e`/`E` exponent. -/
def parseFloatCore (l : List Char) : Option ℚ :=
  let (ip, rest) := l.span Char.isDigit
  let (fp, rest2) :=
    match rest with
    | '.' :: r => r.span Char.isDigit
    | _ => ([], rest)
  if ip.isEmpty && fp.isEmpty then none
  else
    let mantissa : ℚ := (natOfDigits ip : ℚ) + (natOfDigits fp : ℚ) / 10 ^ fp.length
    match rest2 with
    | [] => some mantissa
    | c :: r3 =>
      if c = 'e' ∨ c = 'E' then
        let sr : ℤ × List Char :=
          match r3 with
          | '+' :: r => (1, r)
          | '-' :: r => (-1, r)
          | _ => (1, r3)
        let (ed, r5) := sr.2.span Char.isDigit
        if ed.isEmpty ∨ ¬ r5.isEmpty then none
        else some (mantissa * pow10 (sr.1 * (natOfDigits ed : ℤ)))
      else none

/-- Python `float(s)` on the decimal-literal fragment: `none` models a
`ValueError`. -/
def parseFloat (s : String) : Option ℚ :=
  match stripChars s.toList with
  | '+' :: r => parseFloatCore r
  | '-' :: r => (parseFloatCore r).map (fun q => -q)
  | l => parseFloatCore l

/-- All-decimal-digits check used by `parseInt`. -/
def parseIntDigits (l : List Char) : Option ℕ :=
  if l.isEmpty then none
  else if l.all Char.isDigit then some (natOfDigits l) else none

/-- Python `int(s)` in base 10: `none` models a `ValueError`. -/
def parseInt (s : String) : Option ℤ :=
  match stripChars s.toList with
  | '+' :: r => (parseIntDigits r).map (fun n => (n : ℤ))
  | '-' :: r => (parseIntDigits r).map (fun n => -(n : ℤ))
  | l => (parseIntDigits l).map (fun n => (n : ℤ))

/-- Split a character list at the first occurrence of `c`; `none` if `c`
does not occur. -/
def splitOnceChar (c : Char) : List Char → Option (List Char × List Char)
  | [] => none
  | x :: xs =>
    if x = c then some ([], xs)
    else
      match splitOnceChar c xs with
      | none => none
      | some (a, b) => some (x :: a, b)

/-- Python `s.split(' ', 1)` when it yields two fields; `none` models the
unpacking `ValueError` raised when `s` contains no space. -/
def splitFirstSpace (s : String) : Option (String × String) :=
  match splitOnceChar ' ' s.toList with
  | none => none
  | some (a, b) => some (String.mk a, String.mk b)

/-- Python `s.rsplit(' ', 1)` when it yields two fields (split at the last
space); `none` models the unpacking `ValueError`. -/
def rsplitLastSpace (s : String) : Option (String × String) :=
  match splitOnceChar ' ' s.toList.reverse with
  | none => none
  | some (a, b) => some (String.mk b.reverse, String.mk a.reverse)

/-- Helper for `splitWhitespace`: `cur` holds the reversed current token. -/
def splitWhitespaceAux : List Char → List Char → List String
  | cur, [] => if cur.isEmpty then [] else [String.mk cur.reverse]
  | cur, c :: rest =>
    if c.isWhitespace then
      (if cur.isEmpty then [] else [String.mk cur.reverse]) ++ splitWhitespaceAux [] rest
    else splitWhitespaceAux (c :: cur) rest

/-- Python `s.split()` with no separator: split on whitespace runs,
dropping empty fields. -/
def splitWhitespace (s : String) : List String :=
  splitWhitespaceAux [] s.toList

/-- Python `s.lower()`, modelled as per-character ASCII lowercasing (the
inputs compared against `'y'`/`'n'` are ASCII). -/
def lower (s : String) : String :=
  String.mk (s.toList.map Char.toLower)

end Py

deriving instance DecidableEq for Except

namespace TimeLogger

/-- Module constant `DEFAULT_DAILY_HOURS = 7.8`. -/
def DEFAULT_DAILY_HOURS : ℚ := 7.8

/-- `DEFAULT_COMMENTS.get(tracker_name, DEFAULT_COMMENTS[None])` of the
python3 revision (`redmine-time-logger.py`). -/
def default_comment_for (tracker : String) : String :=
  if tracker = "Anomaly" then "fix"
  else if tracker = "Feature" then "implement"
  else if tracker = "Support" then "feedback"
  else if tracker = "Proposal" then "feedback"
  else "wip"

/-- `TimeLogger.compute_hours_per_issue`:
`round(round((hours / issue_count) / .05) * .05, 2)` (identical in both
source files). -/
def compute_hours_per_issue (hours : ℚ) (issue_count : ℕ) : ℚ :=
  Py.roundTo ((Py.roundHalfEven (hours / (issue_count : ℚ) / (0.05 : ℚ)) : ℚ) * (0.05 : ℚ)) 2

/-- A Redmine time-entry activity (id and name). -/
structure Activity where
  id : ℤ
  name : String
  deriving DecidableEq

/-- `TimeLogger.parse_hours_and_comment` (identical in both source files):
try `hours, comment = text.split(' ', 1); hours = float(hours)`, on
`ValueError` try `hours = float(text)`, on `ValueError` fall back to the
defaults-with-free-text result.  Empty input returns both defaults. -/
def parse_hours_and_comment (text : String) (default_hours : ℚ)
    (default_comment : String) : ℚ × String :=
  if text = "" then (default_hours, default_comment)
  else
    let fallback :=
      match Py.parseFloat text with
      | some h => (h, default_comment)
      | none => (default_hours, text)
    match Py.splitFirstSpace text with
    | none => fallback
    | some (hstr, comment) =>
      match Py.parseFloat hstr with
      | none => fallback
      | some h => (h, comment)

/-- `TimeLogger.parse_hours_comment_and_activity`
(`redmine-time-logger-py35.py`): the first attempt splits off a leading
float, then splits the remainder at its last space into a comment and an
activity id which must parse as an integer and match a known activity; a
`ValueError`/`StopIteration` anywhere in that attempt falls through to
`float(text)`, then to the defaults-with-free-text result. -/
def parse_hours_comment_and_activity (activities : List Activity)
    (text : String) (default_hours : ℚ) (default_comment : String)
    (default_activity : Activity) : ℚ × String × Activity :=
  if text = "" then (default_hours, default_comment, default_activity)
  else
    let fallback :=
      match Py.parseFloat text with
      | some h => (h, default_comment, default_activity)
      | none => (default_hours, text, default_activity)
    match Py.splitFirstSpace text with
    | none => fallback
    | some (hstr, comment) =>
      match Py.parseFloat hstr with
      | none => fallback
      | some h =>
        match Py.rsplitLastSpace comment with
        | none => fallback
        | some (new_comment, astr) =>
          match Py.parseInt astr with
          | none => fallback
          | some aid =>
            match activities.find? (fun a => a.id == aid) with
            | none => fallback
            | some act => (h, new_comment, act)

/-- A journal (comment) entry on an issue: creation date (as an abstract
day number) and author id. -/
structure Journal where
  createdOnDate : ℤ
  userId : ℤ
  deriving DecidableEq

/-- A Redmine issue as the allocation loop sees it: id, tracker name (for
the default comment) and its journals. -/
structure Issue where
  id : ℤ
  trackerName : String
  journals : List Journal
  deriving DecidableEq

/-- `TimeLogger.commented_by_current_user`: some journal entry was created
on the log date by the current user. -/
def commented_by_current_user (logDate userId : ℤ) (issue : Issue) : Bool :=
  issue.journals.any (fun j => j.createdOnDate == logDate && j.userId == userId)

/-- The local `Allocation` record of `redmine-time-logger.py`
(`namedtuple('Allocation', ['issue', 'hours', 'comment'])`). -/
structure Allocation where
  issue : Issue
  hours : ℚ
  comment : String
  deriving DecidableEq

/-- The mutable state threaded through `TimeLogger.allocate`:
`self.remaining_hours`, `self.processed_issue_ids`, the `allocations`
list, and the position in the console input stream. -/
structure AllocState where
  remaining : ℚ
  processed : List ℤ
  allocations : List Allocation
  inputIdx : ℕ
  deriving DecidableEq

/-- The prompt-and-parse part of one `TimeLogger.allocate` loop iteration
for the issue at (1-based) index `i` out of `N`: the default hours are
`compute_hours_per_issue(remaining, N - i + 1)` for a non-last issue and
`round(remaining, 2)` for the last, the default comment comes from the
issue's tracker, and the console answer is parsed against those
defaults. -/
def stepParse (inputs : ℕ → String) (N i : ℕ) (issue : Issue)
    (st : AllocState) : ℚ × String :=
  parse_hours_and_comment (inputs st.inputIdx)
    (if i < N then compute_hours_per_issue st.remaining (N - i + 1)
     else Py.roundTo st.remaining 2)
    (default_comment_for issue.trackerName)

/-- The state update of one `TimeLogger.allocate` loop iteration: the
parsed hours are subtracted from the remaining hours, the issue id is
recorded as processed, and an `Allocation` is appended when the parsed
hours are nonzero (`if hours:`). -/
def allocStep (inputs : ℕ → String) (N i : ℕ) (issue : Issue)
    (st : AllocState) : AllocState :=
  let hc := stepParse inputs N i issue st
  { remaining := st.remaining - hc.1,
    processed := issue.id :: st.processed,
    allocations := st.allocations ++ (if hc.1 = 0 then [] else [⟨issue, hc.1, hc.2⟩]),
    inputIdx := st.inputIdx + 1 }

/-- The `TimeLogger.allocate` loop over the still-unprocessed issues,
with `i` the 1-based index of the next issue and `N` the length of the
whole batch. -/
def allocateGo (inputs : ℕ → String) (N : ℕ) : ℕ → List Issue → AllocState → AllocState
  | _, [], st => st
  | i, issue :: rest, st => allocateGo inputs N (i + 1) rest (allocStep inputs N i issue st)

/-- `TimeLogger.allocate(allocations, to_allocate_issues)`
(`redmine-time-logger.py`; `allocate_issues` of the py35 revision has the
same hours/append logic). -/
def allocate (inputs : ℕ → String) (st : AllocState) (issues : List Issue) : AllocState :=
  allocateGo inputs issues.length 1 issues st

/-- A time entry already logged on the date, as returned by
`redmine.time_entry.filter`: its issue id (absent for project entries),
hours and comment. -/
structure TimeEntry where
  issueId : Option ℤ
  hours : ℚ
  comments : String
  deriving DecidableEq

/-- The session environment of `TimeLogger.run` (`redmine-time-logger.py`):
the configuration, the results each Redmine query would return, and the
console input stream (one string per `input()` call, indexed in call
order). -/
structure Env where
  dailyHours : ℚ
  logDate : ℤ
  currentUserId : ℤ
  defaultActivityId : ℤ
  timeEntries : List TimeEntry
  updatedIssues : List Issue
  watchedUpdatedIssues : List Issue
  assignedIssues : List Issue
  issueById : ℤ → Option Issue
  inputs : ℕ → String

/-- Unhandled Python exceptions that abort `run`: a `ValueError` from
`int(...)` on the additional-issue-ids input, or a missing issue from
`redmine.issue.get`. -/
inductive PyErr
  | valueError
  | resourceNotFound
  deriving DecidableEq

/-- The decision-relevant console messages printed by `run` (other prints,
such as the per-entry listings and the prompts themselves, are elided). -/
inductive Msg
  | hoursAlreadyLogged (h : ℚ)
  | allAlreadyDone
  | negativeRemaining (h : ℚ)
  | noMoreIssues
  | nothingToAllocate
  | msgDone
  deriving DecidableEq

/-- One `redmine.time_entry.create(...)` call: issue id, date, hours
(the `f'{hours:.2f}'` formatting rounds half-to-even at 2 decimals),
comment and activity id. -/
structure CreatedEntry where
  issueId : ℤ
  spentOn : ℤ
  hours : ℚ
  comments : String
  activityId : ℤ
  deriving DecidableEq

/-- The observable outcome of `TimeLogger.run`: its return value (`None`
or `-1`), the tracked messages, the creation calls issued, the final
allocation list, and the string consumed at the `Confirm? (y/N)` prompt
(if reached). -/
structure RunResult where
  exitCode : Option ℤ
  msgs : List Msg
  created : List CreatedEntry
  allocations : List Allocation
  confirmInput : Option String
  deriving DecidableEq

/-- The creation call `run` issues for one allocation. -/
def createdEntryOf (env : Env) (a : Allocation) : CreatedEntry :=
  ⟨a.issue.id, env.logDate, Py.roundTo a.hours 2, a.comment, env.defaultActivityId⟩

/-- The suggestion-gathering loops of `run_suggested_additional_issues`:
append issues not skipped, stopping at a total of 10 (the skip test sees
the list built so far, as the second source loop checks duplicates against
it). -/
def gatherSuggested (skip : List Issue → Issue → Bool) :
    List Issue → List Issue → List Issue
  | acc, [] => acc
  | acc, issue :: rest =>
    if 10 ≤ acc.length then acc
    else if skip acc issue then gatherSuggested skip acc rest
    else gatherSuggested skip (acc ++ [issue]) rest

/-- `{e.id: e for e in suggested}[id]` lookup: a dict comprehension keeps
the last binding for a repeated key, hence the reversed search. -/
def suggestedById (suggested : List Issue) (id : ℤ) : Option Issue :=
  suggested.reverse.find? (fun e => e.id == id)

/-- `[int(e) for e in input(...).split()]`: every whitespace-separated
token must parse as an integer, otherwise the comprehension raises
`ValueError`. -/
def parseIdTokens : List String → Except PyErr (List ℤ)
  | [] => Except.ok []
  | t :: rest =>
    match Py.parseInt t with
    | none => Except.error PyErr.valueError
    | some n => (parseIdTokens rest).map (fun l => n :: l)

/-- The id-resolution loop over the explicit additional-issue-id list:
`if not id: break`, then the suggestion map else `redmine.issue.get(id)`
(which raises on an unknown id). -/
def resolveAdditional (env : Env) (suggested : List Issue) :
    List ℤ → Except PyErr (List Issue)
  | [] => Except.ok []
  | id :: rest =>
    if id = 0 then Except.ok []
    else
      match suggestedById suggested id, env.issueById id with
      | some issue, _ => (resolveAdditional env suggested rest).map (fun l => issue :: l)
      | none, some issue => (resolveAdditional env suggested rest).map (fun l => issue :: l)
      | none, none => Except.error PyErr.resourceNotFound

/-- `TimeLogger.run_suggested_additional_issues` (`redmine-time-logger.py`):
gather up to 10 suggestions from the watched-updated then assigned
queries, prompt for an id list (defaulting to the first 5 suggestions),
and run the allocation loop over the selection. -/
def run_suggested_additional_issues (env : Env) (st : AllocState) :
    Except PyErr AllocState :=
  let s1 := gatherSuggested
    (fun _ issue => st.processed.contains issue.id ||
      commented_by_current_user env.logDate env.currentUserId issue)
    [] env.watchedUpdatedIssues
  let suggested := gatherSuggested
    (fun acc issue => st.processed.contains issue.id ||
      acc.any (fun e => e.id == issue.id))
    s1 env.assignedIssues
  let idsInput := env.inputs st.inputIdx
  let st1 := { st with inputIdx := st.inputIdx + 1 }
  match parseIdTokens (Py.splitWhitespace idsInput) with
  | Except.error e => Except.error e
  | Except.ok ids =>
    if ids = [] then Except.ok (allocate env.inputs st1 (suggested.take 5))
    else
      match resolveAdditional env suggested ids with
      | Except.error e => Except.error e
      | Except.ok additional => Except.ok (allocate env.inputs st1 additional)

/-- `TimeLogger.run` (`redmine-time-logger.py`): reconcile the existing
time entries with the daily budget, stop early when the remaining hours
round to zero (`All already done!`) or are negative (return `-1`), run
the allocation loop over the primary candidates, optionally search for
more issues, and submit one creation call per allocation only after a
confirmation input whose lowercase form is exactly `"y"`. -/
def run (env : Env) : Except PyErr RunResult :=
  let totalExisting := (env.timeEntries.map TimeEntry.hours).sum
  let remaining0 := env.dailyHours - totalExisting
  let workedIssueIds := env.timeEntries.filterMap TimeEntry.issueId
  let msgs0 := [Msg.hoursAlreadyLogged (env.dailyHours - remaining0)]
  if Py.roundTo remaining0 2 = 0 then
    Except.ok ⟨none, msgs0 ++ [Msg.allAlreadyDone], [], [], none⟩
  else if remaining0 < 0 then
    Except.ok ⟨some (-1), msgs0 ++ [Msg.negativeRemaining remaining0], [], [], none⟩
  else
    let toAllocate := env.updatedIssues.filter
      (fun e => !workedIssueIds.contains e.id &&
        commented_by_current_user env.logDate env.currentUserId e)
    let st0 : AllocState := ⟨remaining0, [], [], 0⟩
    let stA := if toAllocate.isEmpty then st0 else allocate env.inputs st0 toAllocate
    let msgsA := msgs0 ++ (if toAllocate.isEmpty then [Msg.noMoreIssues] else [])
    let stB :=
      if 0 < stA.remaining then
        let ans := env.inputs stA.inputIdx
        let stA1 := { stA with inputIdx := stA.inputIdx + 1 }
        if Py.lower ans ≠ "n" then run_suggested_additional_issues env stA1
        else Except.ok stA1
      else Except.ok stA
    match stB with
    | Except.error e => Except.error e
    | Except.ok st2 =>
      if st2.allocations.isEmpty then
        Except.ok ⟨none, msgsA ++ [Msg.nothingToAllocate], [], [], none⟩
      else
        let confirm := env.inputs st2.inputIdx
        if Py.lower confirm = "y" then
          Except.ok ⟨none, msgsA ++ [Msg.msgDone],
            st2.allocations.map (createdEntryOf env), st2.allocations, some confirm⟩
        else
          Except.ok ⟨none, msgsA, [], st2.allocations, some confirm⟩

end TimeLogger

namespace TimeLogger

/-- Whether the text before the first space parses as a float, i.e. the
second parsing attempt of `parse_hours_and_comment` succeeds. -/
def startsWithFloatSpace (text : String) : Bool :=
  match Py.splitFirstSpace text with
  | none => false
  | some (a, _) => (Py.parseFloat a).isSome

/-- Whether the activity-id stage of the first attempt of
`parse_hours_comment_and_activity` fails on the remainder `comment`
(no last-space split, or a non-integer trailing token, or an integer
matching no known activity). -/
def activityStageFails (activities : List Activity) (comment : String) : Bool :=
  match Py.rsplitLastSpace comment with
  | none => true
  | some (_, astr) =>
    match Py.parseInt astr with
    | none => true
    | some aid => (activities.find? (fun a => a.id == aid)).isNone

/-- A session whose existing entries total `7.804` hours against a `7.8`
daily budget: over-logged by `0.004`, which rounds to zero at 2
decimals. -/
def envOverlog : Env :=
  { dailyHours := 39/5, logDate := 0, currentUserId := 7, defaultActivityId := 9,
    timeEntries := [⟨none, 1951/250, "x"⟩], updatedIssues := [],
    watchedUpdatedIssues := [], assignedIssues := [],
    issueById := fun _ => none, inputs := fun _ => "" }

/-- A session whose existing entries total `9` hours against a `7.8`
daily budget: over-logged by `1.2`. -/
def envNegative : Env :=
  { dailyHours := 39/5, logDate := 0, currentUserId := 7, defaultActivityId := 9,
    timeEntries := [⟨none, 9, "x"⟩], updatedIssues := [],
    watchedUpdatedIssues := [], assignedIssues := [],
    issueById := fun _ => none, inputs := fun _ => "" }

/-- A session whose existing entries total `7.802` hours against a `7.8`
daily budget: over-logged by `0.002`, which rounds to zero at 2
decimals. -/
def envTinyOverlog : Env :=
  { dailyHours := 39/5, logDate := 0, currentUserId := 7, defaultActivityId := 9,
    timeEntries := [⟨none, 3901/500, "x"⟩], updatedIssues := [],
    watchedUpdatedIssues := [], assignedIssues := [],
    issueById := fun _ => none, inputs := fun _ => "" }

/-- A session with an empty day, one candidate issue commented by the
user on the log date, the default hours accepted and the submission
confirmed with `"y"`. -/
def envConfirm : Env :=
  { dailyHours := 39/5, logDate := 0, currentUserId := 7, defaultActivityId := 9,
    timeEntries := [], updatedIssues := [⟨1, "Feature", [⟨0, 7⟩]⟩],
    watchedUpdatedIssues := [], assignedIssues := [],
    issueById := fun _ => none, inputs := fun n => if n = 1 then "y" else "" }

/-- The observable outcome of the `envConfirm` session. -/
def confirmResult : RunResult :=
  ⟨none, [Msg.hoursAlreadyLogged 0, Msg.msgDone],
    [⟨1, 0, 39/5, "implement", 9⟩],
    [⟨⟨1, "Feature", [⟨0, 7⟩]⟩, 39/5, "implement"⟩], some "y"⟩

end TimeLogger

section Verification

attribute [local semireducible] Rat.add Rat.mul Rat.inv Rat.sub Rat.ofScientific

namespace Py

/-- `roundHalfEven` fixes integers. -/
theorem roundHalfEven_intCast (k : ℤ) : roundHalfEven (k : ℚ) = k := by
  unfold roundHalfEven
  rw [Int.floor_intCast]
  norm_num

/-- `roundHalfEven` moves its argument by at most `1/2`. -/
theorem abs_sub_roundHalfEven_le (x : ℚ) : |x - (roundHalfEven x : ℚ)| ≤ 1/2 := by
  unfold roundHalfEven
  have h0 : (⌊x⌋ : ℚ) ≤ x := Int.floor_le x
  have h1 : x < ⌊x⌋ + 1 := Int.lt_floor_add_one x
  simp only []
  split_ifs with hlt hgt hev <;> rw [abs_le] <;> push_cast <;> constructor <;> linarith

/-- Rounding to two decimals moves a rational by at most `1/200`. -/
theorem abs_sub_roundTo_two_le (x : ℚ) : |x - roundTo x 2| ≤ 1/200 := by
  have h := abs_sub_roundHalfEven_le (x * 10 ^ 2)
  have e : x - roundTo x 2 = (x * 10 ^ 2 - (roundHalfEven (x * 10 ^ 2) : ℚ)) / 10 ^ 2 := by
    unfold roundTo; ring
  rw [e, abs_div]
  rw [div_le_iff₀ (by norm_num : (0:ℚ) < |(10:ℚ) ^ 2|)]
  calc |x * 10 ^ 2 - (roundHalfEven (x * 10 ^ 2) : ℚ)| ≤ 1/2 := h
    _ = 1/200 * |(10:ℚ) ^ 2| := by norm_num

/-- `round(x, 2)` fixes any integer multiple of `0.05`. -/
theorem roundTo_two_int_mul_five (j : ℤ) :
    roundTo ((j : ℚ) * (0.05 : ℚ)) 2 = (j : ℚ) * (0.05 : ℚ) := by
  unfold roundTo
  have h1 : ((j : ℚ) * (0.05 : ℚ)) * 10 ^ 2 = ((5 * j : ℤ) : ℚ) := by
    push_cast
    norm_num
    ring
  rw [h1, roundHalfEven_intCast]
  push_cast
  norm_num
  ring

end Py

namespace TimeLogger

/-- `compute_hours_per_issue` simplified over exact rationals: the final
2-decimal rounding is the identity on an integer multiple of `0.05`. -/
theorem compute_hours_per_issue_eq (hours : ℚ) (n : ℕ) :
    compute_hours_per_issue hours n
      = (Py.roundHalfEven (hours / (n : ℚ) / (0.05 : ℚ)) : ℚ) * (0.05 : ℚ) := by
  unfold compute_hours_per_issue
  exact Py.roundTo_two_int_mul_five _

/-- C2.  For all positive `hours` and positive `issue_count`,
`compute_hours_per_issue(hours, issue_count)` is `hours / issue_count`
rounded to the nearest `0.05` step (half to even), hence an integer
multiple of `0.05`, and rounding it again to 2 decimal digits is the
identity.  (Python floats are idealised as exact rationals.) -/
theorem compute_hours_per_issue_multiple_of_step (hours : ℚ) (n : ℕ)
    (_hpos : 0 < hours) (_hn : 0 < n) :
    compute_hours_per_issue hours n
        = (Py.roundHalfEven (hours / (n : ℚ) / (0.05 : ℚ)) : ℚ) * (0.05 : ℚ)
      ∧ (∃ k : ℤ, compute_hours_per_issue hours n = (k : ℚ) * (0.05 : ℚ))
      ∧ Py.roundTo (compute_hours_per_issue hours n) 2 = compute_hours_per_issue hours n := by
  refine ⟨compute_hours_per_issue_eq hours n,
    ⟨Py.roundHalfEven (hours / (n : ℚ) / (0.05 : ℚ)), compute_hours_per_issue_eq hours n⟩, ?_⟩
  rw [compute_hours_per_issue_eq]
  exact Py.roundTo_two_int_mul_five _

end TimeLogger

namespace TimeLogger

/-- The parser returns both defaults on empty input (both variants branch
on `if not text`). -/
theorem parse_hours_and_comment_empty (dh : ℚ) (dc : String) :
    parse_hours_and_comment "" dh dc = (dh, dc) := rfl

/-- The allocation loop only appends: the new allocations extend the old
list, the remaining-hours counter drops by exactly the sum of the parsed
hours (dropped zero-hour entries contribute nothing), and every appended
allocation has nonzero hours. -/
theorem allocateGo_extends (inputs : ℕ → String) (N : ℕ) :
    ∀ (issues : List Issue) (i : ℕ) (st : AllocState),
      ∃ extra : List Allocation,
        (allocateGo inputs N i issues st).allocations = st.allocations ++ extra ∧
        (allocateGo inputs N i issues st).remaining
            = st.remaining - (extra.map Allocation.hours).sum ∧
        ∀ a ∈ extra, a.hours ≠ 0 := by
  intro issues
  induction issues with
  | nil =>
    intro i st
    exact ⟨[], by simp [allocateGo], by simp [allocateGo], by simp⟩
  | cons issue rest ih =>
    intro i st
    obtain ⟨extra, ha, hr, hnz⟩ := ih (i + 1) (allocStep inputs N i issue st)
    set hc := stepParse inputs N i issue st with hhc
    refine ⟨(if hc.1 = 0 then [] else [⟨issue, hc.1, hc.2⟩]) ++ extra, ?_, ?_, ?_⟩
    · show (allocateGo inputs N (i + 1) rest (allocStep inputs N i issue st)).allocations = _
      rw [ha]
      show st.allocations ++ (if hc.1 = 0 then [] else [⟨issue, hc.1, hc.2⟩]) ++ extra = _
      rw [List.append_assoc]
    · show (allocateGo inputs N (i + 1) rest (allocStep inputs N i issue st)).remaining = _
      rw [hr]
      show st.remaining - hc.1 - (List.map Allocation.hours extra).sum = _
      by_cases hz : hc.1 = 0
      · simp [hz]
      · simp only [hz, if_false, List.map_append, List.map_cons, List.map_nil, List.sum_append,
          List.sum_cons, List.sum_nil]
        ring
    · intro a hmem
      rcases List.mem_append.1 hmem with hmem1 | hmem2
      · by_cases hz : hc.1 = 0
        · rw [hz] at hmem1; simp at hmem1
        · rw [if_neg hz] at hmem1
          rcases List.mem_singleton.1 hmem1 with rfl
          exact hz
      · exact hnz a hmem2

/-- With all-default (empty) answers, after the last issue of a batch the
remaining hours are the 2-decimal rounding error of the pre-last value:
at most `1/200` in absolute value.  The index argument satisfies
`i + issues.length = N + 1` along the loop. -/
theorem allocateGo_all_defaults_remaining (N : ℕ) :
    ∀ (issues : List Issue) (i : ℕ) (st : AllocState),
      issues ≠ [] → i + issues.length = N + 1 →
      |(allocateGo (fun _ => "") N i issues st).remaining| ≤ 1/200 := by
  intro issues
  induction issues with
  | nil => intro i st h; exact absurd rfl h
  | cons issue rest ih =>
    intro i st _ hlen
    cases rest with
    | nil =>
      have hiN : ¬ i < N := by
        simp only [List.length_cons, List.length_nil] at hlen
        omega
      show |(allocStep (fun _ => "") N i issue st).remaining| ≤ 1/200
      simp only [allocStep, stepParse, hiN, if_false, parse_hours_and_comment_empty]
      exact Py.abs_sub_roundTo_two_le st.remaining
    | cons issue2 rest2 =>
      have hlen2 : (i + 1) + (issue2 :: rest2).length = N + 1 := by
        simp only [List.length_cons] at hlen ⊢
        omega
      exact ih (i + 1) (allocStep (fun _ => "") N i issue st) (by simp) hlen2

end TimeLogger

namespace TimeLogger

/-- C1.  For every positive starting `remaining_hours` and non-empty batch,
when every prompt accepts its default (empty input) the sum of the hours
assigned over the batch (each non-last issue getting
`compute_hours_per_issue(current remaining, items left)` and the last one
the current remaining hours rounded to 2 decimals, per `stepParse`) equals
the whole starting budget minus the final remaining hours, and differs
from the original `remaining_hours` by at most `1/200` — i.e. the batch
exhausts the budget up to 2-decimal rounding. -/
theorem allocate_all_defaults_exhausts_budget (r : ℚ) (issues : List Issue)
    (_hr : 0 < r) (hne : issues ≠ []) :
    ((allocate (fun _ => "") ⟨r, [], [], 0⟩ issues).allocations.map Allocation.hours).sum
        = r - (allocate (fun _ => "") ⟨r, [], [], 0⟩ issues).remaining
    ∧ |((allocate (fun _ => "") ⟨r, [], [], 0⟩ issues).allocations.map Allocation.hours).sum - r|
        ≤ 1/200 := by
  obtain ⟨extra, ha, hrem, -⟩ :=
    allocateGo_extends (fun _ => "") issues.length issues 1 ⟨r, [], [], 0⟩
  have hclose : |(allocate (fun _ => "") ⟨r, [], [], 0⟩ issues).remaining| ≤ 1/200 :=
    allocateGo_all_defaults_remaining issues.length issues 1 ⟨r, [], [], 0⟩ hne (by omega)
  have e1 : (allocate (fun _ => "") ⟨r, [], [], 0⟩ issues).allocations = extra := by
    simpa using ha
  have e2 : (allocate (fun _ => "") ⟨r, [], [], 0⟩ issues).remaining
      = r - (extra.map Allocation.hours).sum := by simpa using hrem
  refine ⟨by rw [e1, e2]; ring, ?_⟩
  rw [e1]
  have e3 : (extra.map Allocation.hours).sum - r
      = -((allocate (fun _ => "") ⟨r, [], [], 0⟩ issues).remaining) := by rw [e2]; ring
  rw [e3, abs_neg]
  exact hclose

/-- C5 (amended).  In every `allocate` loop iteration the remaining-hours
counter is decremented by exactly the parsed hours, and an `Allocation` is
appended if and only if the parsed hours are nonzero (the code tests
`if hours:`, so negative hours are appended too); consequently over a
whole run of the loop every newly built `Allocation` has nonzero hours and
the counter drops by the sum of their hours. -/
theorem allocate_appends_iff_nonzero (inputs : ℕ → String) (N i : ℕ)
    (issue : Issue) (st : AllocState) (issues : List Issue) :
    ((allocStep inputs N i issue st).remaining
        = st.remaining - (stepParse inputs N i issue st).1
      ∧ (allocStep inputs N i issue st).allocations
        = st.allocations ++ (if (stepParse inputs N i issue st).1 = 0 then []
            else [⟨issue, (stepParse inputs N i issue st).1, (stepParse inputs N i issue st).2⟩]))
    ∧ ∃ extra : List Allocation,
        (allocate inputs st issues).allocations = st.allocations ++ extra
        ∧ (allocate inputs st issues).remaining
            = st.remaining - (extra.map Allocation.hours).sum
        ∧ ∀ a ∈ extra, a.hours ≠ 0 :=
  ⟨⟨rfl, rfl⟩, allocateGo_extends inputs issues.length issues 1 st⟩

end TimeLogger

namespace TimeLogger

/-- C8.  For every pair (or triple) of defaults, parsing the empty string
returns exactly the defaults, in both the two-field and the three-field
parser. -/
theorem parse_empty_returns_defaults (dh : ℚ) (dc : String)
    (acts : List Activity) (da : Activity) :
    parse_hours_and_comment "" dh dc = (dh, dc)
    ∧ parse_hours_comment_and_activity acts "" dh dc da = (dh, dc, da) :=
  ⟨rfl, rfl⟩

/-- C4.  The free-text parser is a total function by construction (the
exception-driven fallback chain is modelled by `Option` fall-through);
for every non-empty input whose text before the first space does not
parse as a float and which does not parse as a float on its own, the
result is the default hours with the entire input as the comment. -/
theorem parse_free_text_fallback (text : String) (dh : ℚ) (dc : String)
    (h1 : text ≠ "") (h2 : startsWithFloatSpace text = false)
    (h3 : Py.parseFloat text = none) :
    parse_hours_and_comment text dh dc = (dh, text) := by
  unfold parse_hours_and_comment
  rw [if_neg h1]
  unfold startsWithFloatSpace at h2
  cases hsp : Py.splitFirstSpace text with
  | none => simp [hsp, h3]
  | some p =>
    obtain ⟨a, b⟩ := p
    rw [hsp] at h2
    cases hpf : Py.parseFloat a with
    | none => simp [hsp, hpf, h3]
    | some q => simp [hpf] at h2

end TimeLogger

namespace TimeLogger

/-- Witness for C4 at the spec's example: `"not a number"` is non-empty,
its leading token is not a float, the whole string is not a float, and
parsing yields the default hours with the whole input as comment. -/
theorem parse_free_text_fallback_witness :
    "not a number" ≠ "" ∧ startsWithFloatSpace "not a number" = false
    ∧ Py.parseFloat "not a number" = none
    ∧ parse_hours_and_comment "not a number" 1 "wip" = (1, "not a number") :=
  ⟨by decide, by decide, by decide,
    parse_free_text_fallback "not a number" 1 "wip" (by decide) (by decide) (by decide)⟩

end TimeLogger

namespace TimeLogger

/-- Helper: when the activity-id stage of the three-field parser's first
attempt fails and the whole input is not a float, the result is the
free-text fallback. -/
theorem parse_three_field_fallback_of_stage_failure (acts : List Activity) (text : String)
    (dh : ℚ) (dc : String) (da : Activity) (hstr rest : String)
    (hsp : Py.splitFirstSpace text = some (hstr, rest))
    (hpf : (Py.parseFloat hstr).isSome = true)
    (hfail : activityStageFails acts rest = true)
    (hwhole : Py.parseFloat text = none) :
    parse_hours_comment_and_activity acts text dh dc da = (dh, text, da) := by
  have hne : text ≠ "" := by
    intro h
    rw [h] at hsp
    exact Option.noConfusion hsp
  obtain ⟨q, hq⟩ := Option.isSome_iff_exists.1 hpf
  unfold parse_hours_comment_and_activity
  rw [if_neg hne]
  unfold activityStageFails at hfail
  cases hrs : Py.rsplitLastSpace rest with
  | none => simp [hsp, hq, hrs, hwhole]
  | some p =>
    obtain ⟨nc, astr⟩ := p
    cases hpi : Py.parseInt astr with
    | none => simp [hsp, hq, hrs, hpi, hwhole]
    | some aid =>
      simp only [hrs, hpi, Option.isNone_iff_eq_none] at hfail
      simp [hsp, hq, hrs, hpi, hfail, hwhole]

/-- C10 (amended).  In the three-field parser, for every input with a
space whose leading token parses as a float but whose activity-id stage
fails (no trailing token, a non-integer trailing token, or an unknown
activity id), *and which does not itself parse as a float* (the extra
condition forced by trailing-whitespace inputs such as `"3.5 "`), the
parsed float is discarded and the result is the default hours, the entire
input as comment, and the default activity. -/
theorem parse_three_field_discards_float (acts : List Activity) (text : String)
    (dh : ℚ) (dc : String) (da : Activity) (hstr rest : String)
    (hsp : Py.splitFirstSpace text = some (hstr, rest))
    (hpf : (Py.parseFloat hstr).isSome = true)
    (hfail : activityStageFails acts rest = true)
    (hwhole : Py.parseFloat text = none) :
    parse_hours_comment_and_activity acts text dh dc da = (dh, text, da) :=
  parse_three_field_fallback_of_stage_failure acts text dh dc da hstr rest hsp hpf hfail hwhole

/-- C3 (amended).  On `"3.5 fix bug"` (leading float, trailing token not a
valid activity id) the two-field parser yields hours `3.5` and comment
`"fix bug"`, for every pair of defaults; the three-field parser, whose
first attempt aborts on the failed activity-id stage, instead yields the
default hours, the entire input as comment, and the default activity, for
every activity list and defaults. -/
theorem parse_example_both_parsers (dh : ℚ) (dc : String)
    (acts : List Activity) (da : Activity) :
    parse_hours_and_comment "3.5 fix bug" dh dc = (3.5, "fix bug")
    ∧ parse_hours_comment_and_activity acts "3.5 fix bug" dh dc da
        = (dh, "3.5 fix bug", da) := by
  have hfail : activityStageFails acts "fix bug" = true := by
    unfold activityStageFails
    simp only [show Py.rsplitLastSpace "fix bug" = some ("fix", "bug") from by decide,
      show Py.parseInt "bug" = (none : Option ℤ) from by decide]
  constructor
  · unfold parse_hours_and_comment
    rw [if_neg (by decide : ¬("3.5 fix bug" = ""))]
    simp only [show Py.splitFirstSpace "3.5 fix bug" = some ("3.5", "fix bug") from by decide,
      show Py.parseFloat "3.5" = some (3.5 : ℚ) from by decide]
  · exact parse_three_field_fallback_of_stage_failure acts "3.5 fix bug" dh dc da
      "3.5" "fix bug" (by decide) (by decide) hfail (by decide)

end TimeLogger

namespace TimeLogger

/-- Counterexample for C10 as stated: the input `"3.5 "` contains a space,
its leading token `"3.5"` parses as a float, and its activity-id stage
fails (the remainder `""` has no last-space split) — yet the three-field
parser returns the parsed float `3.5` with the *default* comment, not
`(default_hours, entire input, default_activity)`, because attempt 3
(`float(text)`) succeeds after stripping the trailing whitespace. -/
theorem parse_three_field_trailing_space_counterexample :
    Py.splitFirstSpace "3.5 " = some ("3.5", "")
    ∧ (Py.parseFloat "3.5").isSome = true
    ∧ activityStageFails [⟨9, "Implement"⟩] "" = true
    ∧ parse_hours_comment_and_activity [⟨9, "Implement"⟩] "3.5 " 1 "WIP" ⟨9, "Implement"⟩
        = (3.5, "WIP", ⟨9, "Implement"⟩)
    ∧ ((3.5 : ℚ), "WIP", (⟨9, "Implement"⟩ : Activity))
        ≠ ((1 : ℚ), "3.5 ", (⟨9, "Implement"⟩ : Activity)) := by
  refine ⟨by decide, by decide, by decide, by decide, by decide⟩

/-- Witness for C10 (amended) at `"3.5 fix bug"` (the whole input is not
a float): the three-field parser returns the defaults with the entire
input as comment. -/
theorem parse_three_field_discards_float_witness :
    Py.splitFirstSpace "3.5 fix bug" = some ("3.5", "fix bug")
    ∧ (Py.parseFloat "3.5").isSome = true
    ∧ activityStageFails [⟨9, "Implement"⟩] "fix bug" = true
    ∧ Py.parseFloat "3.5 fix bug" = none
    ∧ parse_hours_comment_and_activity [⟨9, "Implement"⟩] "3.5 fix bug" 1 "WIP" ⟨9, "Implement"⟩
        = (1, "3.5 fix bug", ⟨9, "Implement"⟩) :=
  ⟨by decide, by decide, by decide, by decide,
    parse_three_field_discards_float [⟨9, "Implement"⟩] "3.5 fix bug" 1 "WIP"
      ⟨9, "Implement"⟩ "3.5" "fix bug" (by decide) (by decide) (by decide) (by decide)⟩

/-- Counterexample for C3 as stated: on `"3.5 fix bug"` (trailing token
`"bug"` is not a valid activity id) the *two-field* parser does return
`(3.5, "fix bug")`, but the *three-field* parser returns the default
hours with the whole input as comment — its hours are `1`, not `3.5` —
so the property does not hold for both parsers. -/
theorem parse_three_field_example_counterexample :
    parse_hours_and_comment "3.5 fix bug" 1 "wip" = (3.5, "fix bug")
    ∧ Py.parseInt "bug" = none
    ∧ parse_hours_comment_and_activity [⟨9, "Implement"⟩] "3.5 fix bug" 1 "WIP" ⟨9, "Implement"⟩
        = (1, "3.5 fix bug", ⟨9, "Implement"⟩)
    ∧ ((1 : ℚ)) ≠ (3.5 : ℚ) := by
  refine ⟨by decide, by decide, by decide, by decide⟩

end TimeLogger


namespace TimeLogger

/-- Counterexample for C5 as stated: with the input `"-1 oops"` the parsed
hours are `-1`, which is *not* strictly positive, yet an `Allocation` with
hours `-1` is appended (the code tests `if hours:`, i.e. nonzero, not
`> 0`), so not every Allocation built has positive hours. -/
theorem allocate_appends_negative_hours_counterexample :
    (allocate (fun _ => "-1 oops") ⟨5, [], [], 0⟩ [⟨1, "Feature", []⟩]).allocations
        = [⟨⟨1, "Feature", []⟩, -1, "oops"⟩]
    ∧ ¬ (0 < (-1 : ℚ)) := by
  refine ⟨by decide, by decide⟩

/-- Witness for C1 at the spec's example: remaining `7.8` hours over a
batch of 3 issues with every default accepted gives defaults
`2.6, 2.6, 2.6` summing to exactly `7.8`. -/
theorem allocate_all_defaults_exhausts_budget_witness :
    0 < (39/5 : ℚ)
    ∧ ([⟨1, "Feature", []⟩, ⟨2, "Anomaly", []⟩, ⟨3, "Support", []⟩] : List Issue) ≠ []
    ∧ (((allocate (fun _ => "") ⟨39/5, [], [], 0⟩
          [⟨1, "Feature", []⟩, ⟨2, "Anomaly", []⟩, ⟨3, "Support", []⟩]).allocations.map
            Allocation.hours).sum
        = 39/5 - (allocate (fun _ => "") ⟨39/5, [], [], 0⟩
          [⟨1, "Feature", []⟩, ⟨2, "Anomaly", []⟩, ⟨3, "Support", []⟩]).remaining
      ∧ |((allocate (fun _ => "") ⟨39/5, [], [], 0⟩
          [⟨1, "Feature", []⟩, ⟨2, "Anomaly", []⟩, ⟨3, "Support", []⟩]).allocations.map
            Allocation.hours).sum - 39/5| ≤ 1/200) :=
  ⟨by decide, by decide,
    allocate_all_defaults_exhausts_budget (39/5)
      [⟨1, "Feature", []⟩, ⟨2, "Anomaly", []⟩, ⟨3, "Support", []⟩] (by decide) (by decide)⟩

/-- Witness for C2 at `hours = 7.8`, `issue_count = 3`: the default is
`2.6 = 52 * 0.05`. -/
theorem compute_hours_per_issue_multiple_of_step_witness :
    0 < (39/5 : ℚ) ∧ 0 < 3
    ∧ (compute_hours_per_issue (39/5) 3
          = (Py.roundHalfEven ((39/5 : ℚ) / (3 : ℕ) / (0.05 : ℚ)) : ℚ) * (0.05 : ℚ)
        ∧ (∃ k : ℤ, compute_hours_per_issue (39/5) 3 = (k : ℚ) * (0.05 : ℚ))
        ∧ Py.roundTo (compute_hours_per_issue (39/5) 3) 2 = compute_hours_per_issue (39/5) 3) :=
  ⟨by decide, by decide,
    compute_hours_per_issue_multiple_of_step (39/5) 3 (by decide) (by decide)⟩

end TimeLogger

namespace TimeLogger

/-- C6 (amended).  When the existing entries for the date total strictly
more than the daily budget *by an amount whose remainder does not round to
zero at 2 decimals* (the extra condition forced by the rounded-to-zero
check preceding the negativity check, see C9), `run` reports the
negative-remaining error, returns `-1`, and issues zero time-entry
creation calls. -/
theorem run_negative_remaining (env : Env)
    (h1 : env.dailyHours < (env.timeEntries.map TimeEntry.hours).sum)
    (h2 : Py.roundTo (env.dailyHours - (env.timeEntries.map TimeEntry.hours).sum) 2 ≠ 0) :
    run env = Except.ok ⟨some (-1),
        [Msg.hoursAlreadyLogged ((env.timeEntries.map TimeEntry.hours).sum),
         Msg.negativeRemaining (env.dailyHours - (env.timeEntries.map TimeEntry.hours).sum)],
        [], [], none⟩ := by
  have hneg : env.dailyHours - (env.timeEntries.map TimeEntry.hours).sum < 0 := by linarith
  have hpay : env.dailyHours - (env.dailyHours - (env.timeEntries.map TimeEntry.hours).sum)
      = (env.timeEntries.map TimeEntry.hours).sum := by ring
  simp only [run]
  rw [if_neg h2, if_pos hneg, hpay]
  rfl

/-- C9.  When the existing entries for the date exceed the daily budget by
an amount that rounds to `0.00` at 2 decimals (e.g. remaining `-0.004`),
the rounded-to-zero check fires first: `run` reports completion
(`All already done!`) and returns `None`, not the negative-remaining
error and `-1`; zero creation calls are issued. -/
theorem run_tiny_overlog_reports_done (env : Env)
    (_h1 : env.dailyHours - (env.timeEntries.map TimeEntry.hours).sum < 0)
    (h2 : Py.roundTo (env.dailyHours - (env.timeEntries.map TimeEntry.hours).sum) 2 = 0) :
    run env = Except.ok ⟨none,
        [Msg.hoursAlreadyLogged ((env.timeEntries.map TimeEntry.hours).sum),
         Msg.allAlreadyDone], [], [], none⟩ := by
  have hpay : env.dailyHours - (env.dailyHours - (env.timeEntries.map TimeEntry.hours).sum)
      = (env.timeEntries.map TimeEntry.hours).sum := by ring
  simp only [run]
  rw [if_pos h2, hpay]
  rfl

/-- C7.  In every session that returns normally with a non-empty
allocation list, a confirmation string was consumed, and creation calls
are issued if and only if its lowercase form is `"y"`: on confirmation
exactly one creation call per allocation (in order), on any other input
no creation calls and a plain `None` return.  (Sessions aborted by an
unhandled exception return `Except.error` and never reach the prompt.) -/
theorem run_confirmation_gates_submission (env : Env) (r : RunResult)
    (hok : run env = Except.ok r) (hne : r.allocations ≠ []) :
    ∃ c, r.confirmInput = some c
      ∧ (Py.lower c = "y" →
          r.created = r.allocations.map (createdEntryOf env)
          ∧ r.created.length = r.allocations.length)
      ∧ (Py.lower c ≠ "y" → r.created = [] ∧ r.exitCode = none) := by
  simp only [run] at hok
  split at hok
  · injection hok with h
    subst h
    simp at hne
  · split at hok
    · injection hok with h
      subst h
      simp at hne
    · split at hok
      · exact Except.noConfusion hok
      · rename_i st2 heq
        split at hok
        · injection hok with h
          subst h
          simp at hne
        · split at hok
          · rename_i hy
            injection hok with h
            subst h
            refine ⟨env.inputs st2.inputIdx, rfl, ?_, ?_⟩
            · intro _
              exact ⟨rfl, by simp⟩
            · intro hcon
              exact absurd hy hcon
          · rename_i hy
            injection hok with h
            subst h
            refine ⟨env.inputs st2.inputIdx, rfl, ?_, ?_⟩
            · intro hcon
              exact absurd hcon hy
            · intro _
              exact ⟨rfl, rfl⟩

end TimeLogger

namespace TimeLogger

/-- Counterexample for C6 as stated: in `envOverlog` the existing entries
total `7.804 > 7.8`, yet `run` reports completion (`All already done!`)
with return value `None` — not the negative-remaining error and `-1` —
because the remaining `-0.004` rounds to zero at 2 decimals. -/
theorem run_overlog_rounds_to_zero_counterexample :
    envOverlog.dailyHours < (envOverlog.timeEntries.map TimeEntry.hours).sum
    ∧ run envOverlog = Except.ok ⟨none,
        [Msg.hoursAlreadyLogged (1951/250), Msg.allAlreadyDone], [], [], none⟩
    ∧ (⟨none, [Msg.hoursAlreadyLogged (1951/250), Msg.allAlreadyDone], [], [],
        none⟩ : RunResult).exitCode ≠ some (-1) := by
  refine ⟨by decide, by decide, by decide⟩

/-- Witness for C6 (amended): existing entries totalling `9` hours against
a `7.8` budget leave `-1.2` remaining, which does not round to zero, so
`run` returns `-1` with zero creation calls. -/
theorem run_negative_remaining_witness :
    envNegative.dailyHours < (envNegative.timeEntries.map TimeEntry.hours).sum
    ∧ Py.roundTo (envNegative.dailyHours
        - (envNegative.timeEntries.map TimeEntry.hours).sum) 2 ≠ 0
    ∧ run envNegative = Except.ok ⟨some (-1),
        [Msg.hoursAlreadyLogged ((envNegative.timeEntries.map TimeEntry.hours).sum),
         Msg.negativeRemaining (envNegative.dailyHours
           - (envNegative.timeEntries.map TimeEntry.hours).sum)],
        [], [], none⟩ :=
  ⟨by decide, by decide, run_negative_remaining envNegative (by decide) (by decide)⟩

/-- Witness for C9: existing entries totalling `7.802` hours against a
`7.8` budget leave `-0.002` remaining, which rounds to zero, so `run`
reports completion and returns `None`. -/
theorem run_tiny_overlog_reports_done_witness :
    envTinyOverlog.dailyHours - (envTinyOverlog.timeEntries.map TimeEntry.hours).sum < 0
    ∧ Py.roundTo (envTinyOverlog.dailyHours
        - (envTinyOverlog.timeEntries.map TimeEntry.hours).sum) 2 = 0
    ∧ run envTinyOverlog = Except.ok ⟨none,
        [Msg.hoursAlreadyLogged ((envTinyOverlog.timeEntries.map TimeEntry.hours).sum),
         Msg.allAlreadyDone], [], [], none⟩ :=
  ⟨by decide, by decide, run_tiny_overlog_reports_done envTinyOverlog (by decide) (by decide)⟩

/-- Witness for C7: the `envConfirm` session ends with one allocation of
the full `7.8` hours, the confirmation input is `"y"`, and exactly one
creation call is issued. -/
theorem run_confirmation_gates_submission_witness :
    run envConfirm = Except.ok confirmResult
    ∧ confirmResult.allocations ≠ []
    ∧ ∃ c, confirmResult.confirmInput = some c
        ∧ (Py.lower c = "y" →
            confirmResult.created = confirmResult.allocations.map (createdEntryOf envConfirm)
            ∧ confirmResult.created.length = confirmResult.allocations.length)
        ∧ (Py.lower c ≠ "y" → confirmResult.created = [] ∧ confirmResult.exitCode = none) :=
  ⟨by decide, by decide,
    run_confirmation_gates_submission envConfirm confirmResult (by decide) (by decide)⟩

end TimeLogger

end Verification
